import Mathlib

/-!
Verification development for the SoundBot playback orchestration engine
(`src/soundbot/services/voice.py`).

The Python source is shallowly embedded: timestamps, file paths, channel
ids and user ids are natural numbers (seconds for time), the `deque` is a
`List` (with `appendleft` as cons and `append` at the back), and the
Discord transport (`discord.VoiceClient`) is modelled by an explicit
record whose player is either idle, playing or paused.  The asynchronous
playback loop `_play_next` is embedded as a function that runs from its
entry point up to its single suspension point (`await done_event.wait()`)
or its return; the resumption of the coroutine after the done event fires
is the separate function `wakeResume`.  Facade operations are atomic state
transformers, which matches the source: each of them performs its state
mutations without awaiting between them, and a stopped player only wakes
the suspended loop at a later scheduler turn.
-/

namespace SoundBot

/-- Audio source handed to the transport: the file path (opaque id) and the
seek offset in whole seconds that the source starts from.  The source code
builds `FFmpegOpusAudio` with `-ss seek_position` when `seek_position > 0`
and with no seek option otherwise; both cases are captured by the
`startOffset` field (`0` when no seek option was passed). -/
structure AudioSource where
  path : Nat
  startOffset : Nat
deriving Repr, DecidableEq

/-- Player status of a transport voice client: no player, an actively
playing player, or a paused player.  `is_playing()` is true exactly in the
`playing` state and `is_paused()` exactly in the `paused` state. -/
inductive PlayerStatus
  | idle
  | playing
  | paused
deriving Repr, DecidableEq

/-- Model of `discord.VoiceClient`: the channel it is bound to, whether the
connection is live, the player status and the source given to `play`. -/
structure VoiceClient where
  channelId : Nat
  connected : Bool
  player : PlayerStatus
  source : Option AudioSource
deriving Repr, DecidableEq

def VoiceClient.is_connected (vc : VoiceClient) : Bool := vc.connected

def VoiceClient.is_playing (vc : VoiceClient) : Bool :=
  vc.player == PlayerStatus.playing

def VoiceClient.is_paused (vc : VoiceClient) : Bool :=
  vc.player == PlayerStatus.paused

/-- Model of `QueueItem` from the source: audio path, display name, optional
requesting user, enqueue time, resume seek position (seconds, default 0)
and optional duration. -/
structure QueueItem where
  audio_path : Nat
  name : String
  user : Option Nat
  added_at : Nat
  seek_position : Nat
  duration : Option Nat
deriving Repr, DecidableEq

/-- Status of the per-guild playback loop task: either no loop coroutine is
running, or one is suspended at its single suspension point,
`await done_event.wait()`. -/
inductive LoopStatus
  | notRunning
  | awaitingDone
deriving Repr, DecidableEq

/-- Model of `GuildPlaybackState` from the source.  `play_task` models the state of
the task spawned with `asyncio.create_task(self._play_next(guild))`. -/
structure GuildPlaybackState where
  queue : List QueueItem := []
  current : Option QueueItem := none
  current_started_at : Option Nat := none
  is_paused : Bool := false
  voice_client : Option VoiceClient := none
  play_task : LoopStatus := LoopStatus.notRunning
deriving Repr, DecidableEq

/-- A guild member as seen through the membership queries: id and bot flag. -/
structure Member where
  id : Nat
  bot : Bool
deriving Repr, DecidableEq

/-- A voice channel with its member list. -/
structure VoiceChannel where
  id : Nat
  members : List Member
deriving Repr, DecidableEq

/-- A guild: id and its list of voice channels, in enumeration order. -/
structure Guild where
  id : Nat
  voice_channels : List VoiceChannel
deriving Repr, DecidableEq

/-- The activity timeout `timedelta(minutes=30)`, in seconds. -/
def activityTimeout : Nat := 30 * 60

/-- Model of `record_user_activity`: overwrite the user's last-active timestamp in
the per-guild activity map (association list user id to timestamp). -/
def recordActivity (m : List (Nat × Nat)) (user now : Nat) : List (Nat × Nat) :=
  (user, now) :: m.filter (fun p => p.1 ≠ user)

/-- Model of `_get_recent_users`: ids whose recorded timestamp is within the
activity timeout of `now`. -/
def getRecentUsers (m : List (Nat × Nat)) (now : Nat) : List Nat :=
  (m.filter (fun p => now - p.2 < activityTimeout)).map (fun p => p.1)

/-- The non-bot members of a channel (`[m for m in channel.members if not m.bot]`). -/
def nonBotMembers (ch : VoiceChannel) : List Member :=
  ch.members.filter (fun m => !m.bot)

/-- Count from the source: `sum(1 for m in members if m.id in recent_users)`. -/
def recentCount (recent : List Nat) (ms : List Member) : Nat :=
  (ms.filter (fun m => recent.contains m.id)).length

/-- The `populated_channels` list built by `find_best_channel`: for each
voice channel with at least one non-bot member, the tuple
`(channel, len(members), recent_count)` in guild enumeration order. -/
def populatedChannels (g : Guild) (recent : List Nat) : List (VoiceChannel × Nat × Nat) :=
  g.voice_channels.filterMap (fun ch =>
    let ms := nonBotMembers ch
    if ms.isEmpty then none else some (ch, ms.length, recentCount recent ms))

/-- Lexicographic order on the sort key `(recent_count, member_count)`. -/
def lexLe (p q : Nat × Nat) : Prop :=
  p.1 < q.1 ∨ (p.1 = q.1 ∧ p.2 ≤ q.2)

instance : DecidableRel lexLe := fun p q => by
  unfold lexLe
  infer_instance

/-- The sort key of a `populated_channels` entry: `(x[2], x[1])`, that is
`(recent_count, member_count)`. -/
def chanKey (e : VoiceChannel × Nat × Nat) : Nat × Nat := (e.2.2, e.2.1)

/-- Comparison used by `populated_channels.sort(key=lambda x: (x[2], x[1]),
reverse=True)`: descending by the lexicographic key. -/
def chanGe (a b : VoiceChannel × Nat × Nat) : Prop :=
  lexLe (chanKey b) (chanKey a)

instance : DecidableRel chanGe := fun a b => by
  unfold chanGe
  infer_instance

instance : IsTotal (VoiceChannel × Nat × Nat) chanGe := by
  constructor
  intro a b
  unfold chanGe lexLe
  omega

instance : IsTrans (VoiceChannel × Nat × Nat) chanGe := by
  constructor
  intro a b c hab hbc
  unfold chanGe lexLe at *
  omega

/-- Model of `find_best_channel`: the requester's current voice channel when it has
one (`userVoice` is that channel, already restricted to genuine voice
channels as by the `isinstance` check), otherwise the head of the
populated-channels list sorted descending by `(recent_count,
member_count)`, or `none` when no channel has a non-bot member. -/
def find_best_channel (g : Guild) (userVoice : Option VoiceChannel)
    (activity : List (Nat × Nat)) (now : Nat) : Option VoiceChannel :=
  match userVoice with
  | some ch => some ch
  | none =>
    let recent := getRecentUsers activity now
    match List.insertionSort chanGe (populatedChannels g recent) with
    | [] => none
    | e :: _ => some e.1

/-- Model of `format_duration`. -/
def format_duration : Option Nat → String
  | none => ""
  | some s =>
    if s < 60 then "(" ++ toString s ++ "s)"
    else
      let minutes := s / 60
      let secs := s % 60
      "(" ++ toString minutes ++ ":" ++
        (if secs < 10 then "0" ++ toString secs else toString secs) ++ ")"

/-- The suffix `duration_str`, built as `format_duration(duration)` behind a space when `duration` is truthy,
where a `None` duration and a zero duration are both falsy. -/
def durationSuffix : Option Nat → String
  | none => ""
  | some d => if d = 0 then "" else " " ++ format_duration (some d)

/-- Environment of external collaborators: file existence on disk, the
guild membership snapshot, each user's current voice channel (already
`None` for users whose voice state is absent or not a plain voice
channel), and whether a fresh `channel.connect(timeout=10.0)` succeeds. -/
structure Env where
  fileExists : Nat → Bool
  guild : Guild
  voiceOf : Nat → Option VoiceChannel
  connectOk : Nat → Bool

/-- The requester's current voice channel, `none` when there is no
requester (`find_best_channel(guild, item.user)` with `item.user = None`). -/
def userVoiceOf (env : Env) : Option Nat → Option VoiceChannel
  | none => none
  | some u => env.voiceOf u

/-- One per-guild session: the playback state together with the guild's
slice of the user-activity map. -/
structure Session where
  st : GuildPlaybackState
  activity : List (Nat × Nat)
deriving Repr, DecidableEq

/-- The fresh attempt of `VoiceService.connect`: try
`channel.connect(timeout=10.0, reconnect=False)`; on failure the state
keeps no voice client (the exception is raised before assignment). -/
def freshConnect (env : Env) (ch : VoiceChannel) (st : GuildPlaybackState) :
    Option VoiceClient × GuildPlaybackState :=
  if env.connectOk ch.id then
    let vc : VoiceClient :=
      { channelId := ch.id, connected := true, player := PlayerStatus.idle, source := none }
    (some vc, { st with voice_client := some vc })
  else (none, st)

/-- Model of `VoiceService.connect`: reuse a live connection to the same channel,
move a live connection to a different channel, force-release a stale
client and then attempt a fresh connection. -/
def connect (env : Env) (ch : VoiceChannel) (st : GuildPlaybackState) :
    Option VoiceClient × GuildPlaybackState :=
  match st.voice_client with
  | some vc =>
    if vc.is_connected then
      if vc.channelId = ch.id then (some vc, st)
      else
        let moved := { vc with channelId := ch.id }
        (some moved, { st with voice_client := some moved })
    else
      freshConnect env ch { st with voice_client := none }
  | none => freshConnect env ch st

/-- Model of `_play_next`, from its entry until either it returns or it reaches its
single suspension point `await done_event.wait()`.  The first argument is
the queue (the recursion of the source on a missing audio file is the
recursion on the queue tail here).  Returns the updated playback state and
activity map; a state with `play_task = awaitingDone` is suspended inside
the loop with the player started, and a state with
`play_task = notRunning` is a completed loop invocation. -/
def playNextAux (env : Env) (now : Nat) :
    List QueueItem → GuildPlaybackState → List (Nat × Nat) →
    GuildPlaybackState × List (Nat × Nat)
  | [], st, act =>
    ({ st with queue := [], current := none, play_task := LoopStatus.notRunning }, act)
  | item :: rest, st, act =>
    let st1 := { st with queue := rest, current := some item }
    if env.fileExists item.audio_path = false then
      playNextAux env now rest st1 act
    else
      match find_best_channel env.guild (userVoiceOf env item.user) act now with
      | none =>
        ({ st1 with current := none, play_task := LoopStatus.notRunning }, act)
      | some ch =>
        match connect env ch st1 with
        | (none, st2) =>
          ({ st2 with current := none, play_task := LoopStatus.notRunning }, act)
        | (some vc, st2) =>
          let act2 := match item.user with
            | some u => recordActivity act u now
            | none => act
          let source : AudioSource :=
            { path := item.audio_path, startOffset := item.seek_position }
          let vc2 := { vc with player := PlayerStatus.playing, source := some source }
          ({ st2 with voice_client := some vc2,
                      current_started_at := some now,
                      play_task := LoopStatus.awaitingDone }, act2)

/-- Run `_play_next` on a session (entry point of the spawned loop task). -/
def runPlayNext (env : Env) (now : Nat) (s : Session) : Session :=
  let r := playNextAux env now s.st.queue s.st s.activity
  ⟨r.1, r.2⟩

/-- The loop coroutine resuming after `done_event` fires: clear
`current_started_at`; if not paused continue with `_play_next`, otherwise
the coroutine returns and the task finishes. -/
def wakeResume (env : Env) (now : Nat) (s : Session) : Session :=
  let st1 := { s.st with current_started_at := none }
  if st1.is_paused then
    { s with st := { st1 with play_task := LoopStatus.notRunning } }
  else runPlayNext env now { s with st := st1 }

/-- The loop's done event has been set while the coroutine is suspended:
the loop task is at its suspension point and the player is no longer
running (it finished naturally or was stopped, both of which fire the
`after_play` callback; a merely paused player fires nothing). -/
def wakeEnabled (s : Session) : Prop :=
  s.st.play_task = LoopStatus.awaitingDone ∧
    ∀ vc, s.st.voice_client = some vc → vc.player = PlayerStatus.idle

/-- The transport finished streaming the clip: the player becomes idle and
the `after_play` callback fires. -/
def finishPlayback (s : Session) : Session :=
  match s.st.voice_client with
  | some vc =>
    { s with st := { s.st with
        voice_client := some { vc with player := PlayerStatus.idle, source := none } } }
  | none => s

/-- Something is actively streaming: a voice client exists and its player
is in the playing state. -/
def isStreaming (s : Session) : Prop :=
  ∃ vc, s.st.voice_client = some vc ∧ vc.player = PlayerStatus.playing

/-- Model of `queue_sound`: push the item to the back (default) or front of the
queue; when nothing is current and not paused, spawn the playback loop and
report now playing, otherwise report the queue position. -/
def queue_sound (env : Env) (now : Nat) (s : Session) (audio_path : Nat)
    (name : String) (user : Option Nat) (play_next : Bool)
    (duration : Option Nat) : Session × Bool × String :=
  if env.fileExists audio_path = false then (s, false, "Audio file not found")
  else
    let item : QueueItem :=
      { audio_path := audio_path, name := name, user := user,
        added_at := now, seek_position := 0, duration := duration }
    let q := if play_next then item :: s.st.queue else s.st.queue ++ [item]
    let st1 := { s.st with queue := q }
    if st1.current = none ∧ st1.is_paused = false then
      (runPlayNext env now { s with st := st1 }, true,
        "Playing **" ++ name ++ "**" ++ durationSuffix duration)
    else
      let position := if play_next then 1 else q.length
      ({ s with st := st1 }, true,
        "Queued **" ++ name ++ "**" ++ durationSuffix duration ++
          " (position " ++ toString position ++ ")")

/-- Model of `play_now`: when something is actively streaming, add the elapsed time
to the current item's seek position, requeue it at the front and stop the
transport; then push the new item to the front; spawn the loop only when
nothing is current. -/
def play_now (env : Env) (now : Nat) (s : Session) (audio_path : Nat)
    (name : String) (user : Option Nat) (duration : Option Nat) :
    Session × Bool × String :=
  if env.fileExists audio_path = false then (s, false, "Audio file not found")
  else
    let st := s.st
    let st1 :=
      match st.current, st.voice_client with
      | some cur, some vc =>
        if vc.is_playing then
          let cur2 :=
            match st.current_started_at with
            | some t0 => { cur with seek_position := cur.seek_position + (now - t0) }
            | none => cur
          { st with current := some cur2,
                    queue := cur2 :: st.queue,
                    voice_client :=
                      some { vc with player := PlayerStatus.idle, source := none } }
        else st
      | _, _ => st
    let item : QueueItem :=
      { audio_path := audio_path, name := name, user := user,
        added_at := now, seek_position := 0, duration := duration }
    let st2 := { st1 with queue := item :: st1.queue }
    let s2 : Session := { s with st := st2 }
    let s3 := if st2.current = none then runPlayNext env now s2 else s2
    (s3, true, "Playing **" ++ name ++ "**" ++ durationSuffix duration ++ " now")

/-- Model of `skip`: signal the transport to stop when it is actively playing. -/
def skip (s : Session) : Session × Bool × String :=
  if s.st.current = none ∧ s.st.queue = [] then
    (s, false, "Nothing is playing or queued")
  else
    match s.st.voice_client with
    | some vc =>
      if vc.is_playing then
        let nm := match s.st.current with
          | some c => c.name
          | none => "current"
        let vc2 := { vc with player := PlayerStatus.idle, source := none }
        ({ s with st := { s.st with voice_client := some vc2 } },
          true, "Skipped **" ++ nm ++ "**")
      else (s, false, "Nothing is currently playing")
    | none => (s, false, "Nothing is currently playing")

/-- Model of `stop`: clear the queue, clear the paused flag, stop the transport when
it is actively playing, clear the current item. -/
def stop (s : Session) : Session × Bool × String :=
  let st := s.st
  if st.current = none ∧ st.queue = [] then
    (s, false, "Nothing is playing or queued")
  else
    let queueCount := st.queue.length
    let st1 := { st with queue := [], is_paused := false }
    let st2 :=
      match st1.voice_client with
      | some vc =>
        if vc.is_playing then
          let vc2 := { vc with player := PlayerStatus.idle, source := none }
          { st1 with voice_client := some vc2 }
        else st1
      | none => st1
    let st3 := { st2 with current := none }
    ({ s with st := st3 }, true,
      if queueCount > 0 then
        "Stopped playback and cleared " ++ toString queueCount ++ " queued sounds"
      else "Stopped playback")

/-- Model of `pause`: pause the transport and set the paused flag when something is
actively playing. -/
def pause (s : Session) : Session × Bool × String :=
  let st := s.st
  match st.voice_client with
  | none => (s, false, "Not connected to voice")
  | some vc =>
    if st.is_paused then (s, false, "Already paused")
    else if vc.is_playing then
      let nm := match st.current with
        | some c => c.name
        | none => "playback"
      let vc2 := { vc with player := PlayerStatus.paused }
      ({ s with st := { st with is_paused := true, voice_client := some vc2 } },
        true, "Paused **" ++ nm ++ "**")
    else (s, false, "Nothing is playing")

/-- Model of `resume`: resume a paused transport; when the paused flag was set but
the transport is not paused, clear the flag and restart the loop on a
non-empty queue. -/
def resume (env : Env) (now : Nat) (s : Session) : Session × Bool × String :=
  let st := s.st
  match st.voice_client with
  | none => (s, false, "Not connected to voice")
  | some vc =>
    if st.is_paused = false then (s, false, "Not paused")
    else if vc.is_paused then
      let nm := match st.current with
        | some c => c.name
        | none => "playback"
      let vc2 := { vc with player := PlayerStatus.playing }
      ({ s with st := { st with is_paused := false, voice_client := some vc2 } },
        true, "Resumed **" ++ nm ++ "**")
    else
      let st1 := { st with is_paused := false }
      if st1.queue.isEmpty then
        ({ s with st := st1 }, false, "Nothing to resume")
      else
        (runPlayNext env now { s with st := st1 }, true, "Resumed queue playback")

/-- Model of `disconnect`: release the voice client, clear the queue and the current
item.  The paused flag, the started-at timestamp and the loop-task handle
are left untouched by the source. -/
def disconnect (s : Session) : Session :=
  { s with st := { s.st with voice_client := none, queue := [], current := none } }

/-- The facade `connect` operation applied to a session. -/
def connectOp (env : Env) (ch : VoiceChannel) (s : Session) :
    Session × Option VoiceClient :=
  let r := connect env ch s.st
  ({ s with st := r.2 }, r.1)

/-- A fresh `GuildPlaybackState()` with dataclass defaults. -/
def initState : GuildPlaybackState := {}

/-- The session of a guild that has never been touched. -/
def initSession : Session := ⟨initState, []⟩

/-- One step of the system excluding `disconnect`: any facade operation
with arbitrary arguments and collaborator environment, a natural playback
completion, or the suspended loop waking after its done event fired. -/
inductive StepND : Session → Session → Prop
  | queueStep (s : Session) (env : Env) (now p : Nat) (n : String)
      (u : Option Nat) (pn : Bool) (d : Option Nat) :
      StepND s (queue_sound env now s p n u pn d).1
  | playNowStep (s : Session) (env : Env) (now p : Nat) (n : String)
      (u : Option Nat) (d : Option Nat) :
      StepND s (play_now env now s p n u d).1
  | skipStep (s : Session) : StepND s (skip s).1
  | stopStep (s : Session) : StepND s (stop s).1
  | pauseStep (s : Session) : StepND s (pause s).1
  | resumeStep (s : Session) (env : Env) (now : Nat) :
      StepND s (resume env now s).1
  | connectStep (s : Session) (env : Env) (ch : VoiceChannel) :
      StepND s (connectOp env ch s).1
  | finishStep (s : Session) : isStreaming s → StepND s (finishPlayback s)
  | wakeStep (s : Session) (env : Env) (now : Nat) :
      wakeEnabled s → StepND s (wakeResume env now s)

/-- One step of the system: a non-disconnect step or a `disconnect`. -/
inductive Step : Session → Session → Prop
  | nd {s t : Session} : StepND s t → Step s t
  | disconnectStep (s : Session) : Step s (disconnect s)

/-- Session states reachable from the fresh session. -/
inductive Reachable : Session → Prop
  | init : Reachable initSession
  | step {s t : Session} : Reachable s → Step s t → Reachable t

/-- Session states reachable from the fresh session without `disconnect`. -/
inductive ReachableND : Session → Prop
  | init : ReachableND initSession
  | step {s t : Session} : ReachableND s → StepND s t → ReachableND t

/-- The claimed per-session invariant: paused implies a current item and a
connection. -/
def PausedInv (s : Session) : Prop :=
  s.st.is_paused = true → s.st.current ≠ none ∧ s.st.voice_client ≠ none

/-- Strengthened inductive invariant: the paused invariant, and properties
of the voice client: it is always a live connection, an actively playing
player implies a current item, and the paused flag implies the player is
not in the playing state. -/
def StateInv (s : Session) : Prop :=
  PausedInv s ∧
    ∀ vc, s.st.voice_client = some vc →
      vc.connected = true ∧
      (vc.player = PlayerStatus.playing → s.st.current ≠ none) ∧
      (s.st.is_paused = true → vc.player ≠ PlayerStatus.playing)

/-- The per-guild state registry `self._states`. -/
def Registry := List (Nat × GuildPlaybackState)

/-- Lookup of a guild id in the registry. -/
def lookupGuild : List (Nat × GuildPlaybackState) → Nat → Option GuildPlaybackState
  | [], _ => none
  | (g, st) :: rest, gid => if g = gid then some st else lookupGuild rest gid

/-- Model of `_get_state`: get or lazily create the playback state for a guild. -/
def get_state (m : List (Nat × GuildPlaybackState)) (gid : Nat) :
    GuildPlaybackState × List (Nat × GuildPlaybackState) :=
  match lookupGuild m gid with
  | some st => (st, m)
  | none => (initState, m ++ [(gid, initState)])

/-- Model of `get_queue`. -/
def get_queue (m : List (Nat × GuildPlaybackState)) (gid : Nat) :
    List QueueItem × List (Nat × GuildPlaybackState) :=
  let r := get_state m gid
  (r.1.queue, r.2)

/-- Model of `get_current`. -/
def get_current (m : List (Nat × GuildPlaybackState)) (gid : Nat) :
    Option QueueItem × List (Nat × GuildPlaybackState) :=
  let r := get_state m gid
  (r.1.current, r.2)

/-- Model of `is_playing`: a voice client exists and its player is playing. -/
def is_playing (m : List (Nat × GuildPlaybackState)) (gid : Nat) :
    Bool × List (Nat × GuildPlaybackState) :=
  let r := get_state m gid
  (match r.1.voice_client with
    | some vc => vc.is_playing
    | none => false, r.2)

/-- Model of `is_paused`. -/
def is_paused (m : List (Nat × GuildPlaybackState)) (gid : Nat) :
    Bool × List (Nat × GuildPlaybackState) :=
  let r := get_state m gid
  (r.1.is_paused, r.2)


/-- Concrete collaborator environment for counterexample traces: every file
exists, one guild with a single voice channel (id 10) holding one human
member, no requester has a voice state, and connections succeed. -/
def cexEnv : Env :=
  { fileExists := fun _ => true,
    guild := { id := 1,
               voice_channels := [{ id := 10, members := [{ id := 100, bot := false }] }] },
    voiceOf := fun _ => none,
    connectOk := fun _ => true }

/-- Trace state: one sound queued on the fresh session; the spawned loop
pops it and starts streaming it. -/
def cexSession1 : Session := (queue_sound cexEnv 0 initSession 5 "x" none false none).1

/-- Trace state: `pause` while the sound is streaming. -/
def cexSession2 : Session := (pause cexSession1).1

/-- Trace state: `disconnect` while paused. -/
def cexSession3 : Session := disconnect cexSession2


/-- A session that is flagged paused while the transport is not paused and
the queue is non-empty (the stop-while-paused edge state targeted by
`resume`), used to witness the resume-restart behaviour. -/
def sessionC8 : Session :=
  ⟨{ queue := [{ audio_path := 7, name := "w", user := none, added_at := 0,
                 seek_position := 0, duration := none }],
     current := none,
     current_started_at := none,
     is_paused := true,
     voice_client := some { channelId := 10, connected := true,
                            player := PlayerStatus.idle, source := none },
     play_task := LoopStatus.notRunning }, []⟩


/-- Queue items for the loop-failure scenarios. -/
def itemA : QueueItem :=
  { audio_path := 40, name := "a", user := none, added_at := 0,
    seek_position := 0, duration := none }

def itemB : QueueItem :=
  { audio_path := 41, name := "b", user := none, added_at := 0,
    seek_position := 0, duration := none }

/-- A session with two items queued and the loop about to run. -/
def sessionC2 : Session := ⟨{ queue := [itemA, itemB] }, []⟩

/-- Environment in which no voice channel has any member, so channel
resolution fails. -/
def envNoChannel : Env :=
  { fileExists := fun _ => true,
    guild := { id := 3, voice_channels := [] },
    voiceOf := fun _ => none,
    connectOk := fun _ => true }

/-- Environment with a populated channel but failing connections. -/
def envNoConnect : Env :=
  { fileExists := fun _ => true,
    guild := { id := 1,
               voice_channels := [{ id := 10, members := [{ id := 100, bot := false }] }] },
    voiceOf := fun _ => none,
    connectOk := fun _ => false }

/-- Channel with three non-bot members of which one is recent. -/
def chanB : VoiceChannel :=
  { id := 20, members := [{ id := 2, bot := false }, { id := 11, bot := false },
                          { id := 12, bot := false }] }

/-- Channel with two non-bot members of which both are recent. -/
def chanC : VoiceChannel :=
  { id := 21, members := [{ id := 3, bot := false }, { id := 4, bot := false }] }

/-- Guild holding the two channels of the selection example. -/
def guildBC : Guild := { id := 2, voice_channels := [chanB, chanC] }

/-- Activity map making users 2, 3 and 4 recent at time 200. -/
def actBC : List (Nat × Nat) := [(2, 100), (3, 100), (4, 100)]

end SoundBot

namespace SoundBot

/-! ### Helper lemmas -/

theorem lookupGuild_append_self (m : List (Nat × GuildPlaybackState)) (gid : Nat)
    (h : lookupGuild m gid = none) :
    lookupGuild (m ++ [(gid, initState)]) gid = some initState := by
  induction m with
  | nil => simp [lookupGuild]
  | cons p rest ih =>
    by_cases hp : p.1 = gid
    · exfalso
      simp [lookupGuild, hp] at h
    · simp only [lookupGuild, hp, if_neg] at h ⊢
      simpa [lookupGuild, hp] using ih h

theorem connect_is_paused (env : Env) (ch : VoiceChannel) (st : GuildPlaybackState) :
    (connect env ch st).2.is_paused = st.is_paused := by
  unfold connect freshConnect
  cases h : st.voice_client <;> dsimp only <;> split_ifs <;> rfl

theorem connect_current (env : Env) (ch : VoiceChannel) (st : GuildPlaybackState) :
    (connect env ch st).2.current = st.current := by
  unfold connect freshConnect
  cases h : st.voice_client <;> dsimp only <;> split_ifs <;> rfl

theorem connect_queue (env : Env) (ch : VoiceChannel) (st : GuildPlaybackState) :
    (connect env ch st).2.queue = st.queue := by
  unfold connect freshConnect
  cases h : st.voice_client <;> dsimp only <;> split_ifs <;> rfl

end SoundBot

namespace SoundBot

theorem playNextAux_is_paused (env : Env) (now : Nat) :
    ∀ (q : List QueueItem) (st : GuildPlaybackState) (act : List (Nat × Nat)),
      (playNextAux env now q st act).1.is_paused = st.is_paused := by
  intro q
  induction q with
  | nil => intro st act; rfl
  | cons item rest ih =>
    intro st act
    rw [playNextAux]
    by_cases hf : env.fileExists item.audio_path = false
    · simpa [hf] using ih _ _
    · simp only [hf, if_false]
      cases hfb : find_best_channel env.guild (userVoiceOf env item.user) act now with
      | none => simp [hfb]
      | some ch =>
        simp only [hfb]
        have hcp := connect_is_paused env ch { st with queue := rest, current := some item }
        rcases hcn : connect env ch { st with queue := rest, current := some item } with ⟨vcOpt, st2⟩
        rw [hcn] at hcp
        simp only [] at hcp
        cases vcOpt <;> simp [hcp]

end SoundBot

namespace SoundBot

theorem connect_fail_no_client (env : Env) (ch : VoiceChannel) (st : GuildPlaybackState)
    (h : ∀ vc, st.voice_client = some vc → vc.connected = true)
    (hf : (connect env ch st).1 = none) :
    (connect env ch st).2.voice_client = none := by
  revert hf
  unfold connect freshConnect
  cases hv : st.voice_client <;> dsimp only <;> split_ifs <;>
    intro hf <;> simp_all [VoiceClient.is_connected]

theorem connect_some_connected (env : Env) (ch : VoiceChannel) (st : GuildPlaybackState)
    (rvc : VoiceClient)
    (h : ∀ vc, st.voice_client = some vc → vc.connected = true)
    (hs : (connect env ch st).1 = some rvc) :
    rvc.connected = true := by
  revert hs
  unfold connect freshConnect
  cases hv : st.voice_client <;> dsimp only <;> split_ifs <;>
    intro hs <;> simp_all [VoiceClient.is_connected] <;> (try (cases hs; rfl))

theorem playNextAux_inv (env : Env) (now : Nat) :
    ∀ (q : List QueueItem) (st : GuildPlaybackState) (act : List (Nat × Nat)),
      (∀ vc, st.voice_client = some vc →
        vc.connected = true ∧ vc.player ≠ PlayerStatus.playing) →
      ∀ vc2, (playNextAux env now q st act).1.voice_client = some vc2 →
        vc2.connected = true ∧
        (vc2.player = PlayerStatus.playing →
          (playNextAux env now q st act).1.current ≠ none) := by
  intro q
  induction q with
  | nil =>
    intro st act h vc2 hvc2
    have hvc : st.voice_client = some vc2 := hvc2
    rcases h vc2 hvc with ⟨hc, hnp⟩
    exact ⟨hc, fun hp => absurd hp hnp⟩
  | cons item rest ih =>
    intro st act h vc2
    rw [playNextAux]
    by_cases hf : env.fileExists item.audio_path = false
    · simp only [hf, if_true]
      exact ih { st with queue := rest, current := some item } act h vc2
    · simp only [hf, if_false]
      cases hfb : find_best_channel env.guild (userVoiceOf env item.user) act now with
      | none =>
        simp only [hfb]
        intro hvc2
        have hvc : st.voice_client = some vc2 := hvc2
        rcases h vc2 hvc with ⟨hc, hnp⟩
        exact ⟨hc, fun hp => absurd hp hnp⟩
      | some ch =>
        simp only [hfb]
        have hconn : ∀ vc, ({ st with queue := rest, current := some item } :
            GuildPlaybackState).voice_client = some vc → vc.connected = true := by
          intro vc hvc
          exact (h vc hvc).1
        rcases hcn : connect env ch { st with queue := rest, current := some item } with
          ⟨vcOpt, st2⟩
        cases vcOpt with
        | none =>
          dsimp only
          intro hvc2
          have hnone := connect_fail_no_client env ch
            { st with queue := rest, current := some item } hconn (by rw [hcn])
          rw [hcn] at hnone
          have hvc : st2.voice_client = some vc2 := hvc2
          rw [hnone] at hvc
          exact absurd hvc (by simp)
        | some rvc =>
          dsimp only
          intro hvc2
          have hrc : rvc.connected = true := connect_some_connected env ch
            { st with queue := rest, current := some item } rvc hconn (by rw [hcn])
          have hcur : st2.current = some item := by
            have hc2 := connect_current env ch { st with queue := rest, current := some item }
            rw [hcn] at hc2
            simpa using hc2
          have hveq : vc2 = { rvc with player := PlayerStatus.playing, source := some { path := item.audio_path, startOffset := item.seek_position } } := by
            have h1 : some ({ rvc with player := PlayerStatus.playing, source := some { path := item.audio_path, startOffset := item.seek_position } } : VoiceClient) = some vc2 := hvc2
            exact (Option.some_inj.mp h1).symm
          constructor
          · rw [hveq]
            exact hrc
          · intro hp
            simp [hcur]

end SoundBot

namespace SoundBot

theorem runPlayNext_StateInv (env : Env) (now : Nat) (s : Session)
    (hp : s.st.is_paused = false)
    (h : ∀ vc, s.st.voice_client = some vc →
      vc.connected = true ∧ vc.player ≠ PlayerStatus.playing) :
    StateInv (runPlayNext env now s) := by
  have hps : (runPlayNext env now s).st.is_paused = false := by
    have := playNextAux_is_paused env now s.st.queue s.st s.activity
    rw [hp] at this
    exact this
  constructor
  · intro hpp
    rw [hps] at hpp
    cases hpp
  · intro vc hvc
    have hinv := playNextAux_inv env now s.st.queue s.st s.activity h vc hvc
    refine ⟨hinv.1, hinv.2, ?_⟩
    intro hpt
    rw [hps] at hpt
    cases hpt

theorem queue_sound_StateInv (env : Env) (now : Nat) (s : Session) (p : Nat)
    (nm : String) (u : Option Nat) (pn : Bool) (d : Option Nat)
    (hs : StateInv s) : StateInv (queue_sound env now s p nm u pn d).1 := by
  unfold queue_sound
  split_ifs with hfe hpn
  · exact hs
  · dsimp only
    split_ifs with hidle
    · refine runPlayNext_StateInv env now _ hidle.2 ?_
      intro vc hvc
      have h2 := hs.2 vc hvc
      refine ⟨h2.1, ?_⟩
      intro hpl
      exact absurd hidle.1 (h2.2.1 hpl)
    · exact hs
  · dsimp only
    split_ifs with hidle2
    · refine runPlayNext_StateInv env now _ hidle2.2 ?_
      intro vc hvc
      have h2 := hs.2 vc hvc
      refine ⟨h2.1, ?_⟩
      intro hpl
      exact absurd hidle2.1 (h2.2.1 hpl)
    · exact hs

end SoundBot

namespace SoundBot

theorem play_now_StateInv (env : Env) (now : Nat) (s : Session) (p : Nat)
    (nm : String) (u : Option Nat) (d : Option Nat)
    (hs : StateInv s) : StateInv (play_now env now s p nm u d).1 := by
  obtain ⟨⟨q, cur, tst, pz, vcl, tk⟩, act⟩ := s
  unfold play_now
  split_ifs with hfe
  · exact hs
  · dsimp only
    cases cur with
    | none =>
      dsimp only
      have hp : pz = false := by
        cases hpz : pz
        · rfl
        · exact absurd rfl (hs.1 hpz).1
      subst hp
      cases vcl with
      | none =>
        exact runPlayNext_StateInv env now
          ⟨⟨{ audio_path := p, name := nm, user := u, added_at := now,
              seek_position := 0, duration := d } :: q, none, tst, false, none, tk⟩, act⟩
          rfl (fun vc hvc => by simp at hvc)
      | some vc =>
        refine runPlayNext_StateInv env now
          ⟨⟨{ audio_path := p, name := nm, user := u, added_at := now,
              seek_position := 0, duration := d } :: q, none, tst, false, some vc, tk⟩, act⟩
          rfl ?_
        intro vc2 hvc2
        have hveq : vc2 = vc := by
          have h1 : some vc = some vc2 := hvc2
          exact (Option.some_inj.mp h1).symm
        subst hveq
        refine ⟨(hs.2 vc2 rfl).1, ?_⟩
        intro hpl2
        exact absurd rfl ((hs.2 vc2 rfl).2.1 hpl2)
    | some cur =>
      cases vcl with
      | none => exact hs
      | some vc =>
        dsimp only
        cases hpl : vc.is_playing with
        | false => exact hs
        | true =>
          cases tst with
          | none =>
            constructor
            · intro hpt
              exact ⟨by simp, by simp⟩
            · intro vc2 hvc2
              have hveq : some ({ vc with player := PlayerStatus.idle, source := none } : VoiceClient) = some vc2 := hvc2
              cases Option.some_inj.mp hveq
              refine ⟨(hs.2 vc rfl).1, ?_, ?_⟩
              · intro hpl2
                cases hpl2
              · intro hpt hpl2
                cases hpl2
          | some t0 =>
            constructor
            · intro hpt
              exact ⟨by simp, by simp⟩
            · intro vc2 hvc2
              have hveq : some ({ vc with player := PlayerStatus.idle, source := none } : VoiceClient) = some vc2 := hvc2
              cases Option.some_inj.mp hveq
              refine ⟨(hs.2 vc rfl).1, ?_, ?_⟩
              · intro hpl2
                cases hpl2
              · intro hpt hpl2
                cases hpl2

end SoundBot

namespace SoundBot

theorem skip_StateInv (s : Session) (hs : StateInv s) : StateInv (skip s).1 := by
  obtain ⟨⟨q, cur, tst, pz, vcl, tk⟩, act⟩ := s
  unfold skip
  by_cases h1 : cur = none ∧ q = []
  · rw [if_pos h1]
    exact hs
  · rw [if_neg h1]
    dsimp only
    cases vcl with
    | none => exact hs
    | some vc =>
      dsimp only
      cases hpl : vc.is_playing with
      | false => exact hs
      | true =>
        constructor
        · intro hpt
          exact ⟨(hs.1 hpt).1, by simp⟩
        · intro vc2 hvc2
          have hveq := Option.some_inj.mp (show some ({ vc with player := PlayerStatus.idle, source := none } : VoiceClient) = some vc2 from hvc2)
          cases hveq
          refine ⟨(hs.2 vc rfl).1, ?_, ?_⟩
          · intro hpl2
            cases hpl2
          · intro hpt hpl2
            cases hpl2

theorem stop_StateInv (s : Session) (hs : StateInv s) : StateInv (stop s).1 := by
  obtain ⟨⟨q, cur, tst, pz, vcl, tk⟩, act⟩ := s
  unfold stop
  dsimp only
  by_cases h1 : cur = none ∧ q = []
  · rw [if_pos h1]
    exact hs
  · rw [if_neg h1]
    dsimp only
    cases vcl with
    | none =>
      dsimp only
      constructor
      · intro hpt
        cases hpt
      · intro vc2 hvc2
        simp at hvc2
    | some vc =>
      dsimp only
      cases hpl : vc.is_playing with
      | false =>
        constructor
        · intro hpt
          cases hpt
        · intro vc2 hvc2
          have hveq := Option.some_inj.mp (show some vc = some vc2 from hvc2)
          cases hveq
          refine ⟨(hs.2 vc rfl).1, ?_, ?_⟩
          · intro hpl2
            unfold VoiceClient.is_playing at hpl
            rw [hpl2] at hpl
            simp at hpl
          · intro hpt
            cases hpt
      | true =>
        constructor
        · intro hpt
          cases hpt
        · intro vc2 hvc2
          have hveq := Option.some_inj.mp (show some ({ vc with player := PlayerStatus.idle, source := none } : VoiceClient) = some vc2 from hvc2)
          cases hveq
          refine ⟨(hs.2 vc rfl).1, ?_, ?_⟩
          · intro hpl2
            cases hpl2
          · intro hpt
            cases hpt

theorem pause_StateInv (s : Session) (hs : StateInv s) : StateInv (pause s).1 := by
  obtain ⟨⟨q, cur, tst, pz, vcl, tk⟩, act⟩ := s
  unfold pause
  (try dsimp only)
  cases vcl with
  | none => exact hs
  | some vc =>
    dsimp only
    cases pz with
    | true => exact hs
    | false =>
      cases hpl : vc.is_playing with
      | false => exact hs
      | true =>
        have hppl : vc.player = PlayerStatus.playing := by
          unfold VoiceClient.is_playing at hpl
          exact of_decide_eq_true hpl
        constructor
        · intro hpt
          exact ⟨(hs.2 vc rfl).2.1 hppl, by simp⟩
        · intro vc2 hvc2
          have hveq := Option.some_inj.mp (show some ({ vc with player := PlayerStatus.paused } : VoiceClient) = some vc2 from hvc2)
          cases hveq
          refine ⟨(hs.2 vc rfl).1, ?_, ?_⟩
          · intro hpl2
            cases hpl2
          · intro hpt hpl2
            cases hpl2

theorem resume_StateInv (env : Env) (now : Nat) (s : Session) (hs : StateInv s) :
    StateInv (resume env now s).1 := by
  obtain ⟨⟨q, cur, tst, pz, vcl, tk⟩, act⟩ := s
  unfold resume
  (try dsimp only)
  cases vcl with
  | none => exact hs
  | some vc =>
    dsimp only
    cases pz with
    | false => exact hs
    | true =>
      cases hvp : vc.is_paused with
      | true =>
        constructor
        · intro hpt
          cases hpt
        · intro vc2 hvc2
          have hveq := Option.some_inj.mp (show some ({ vc with player := PlayerStatus.playing } : VoiceClient) = some vc2 from hvc2)
          cases hveq
          refine ⟨(hs.2 vc rfl).1, ?_, ?_⟩
          · intro hpl2
            exact (hs.1 rfl).1
          · intro hpt
            cases hpt
      | false =>
        cases q with
        | nil =>
          constructor
          · intro hpt
            cases hpt
          · intro vc2 hvc2
            have hveq := Option.some_inj.mp (show some vc = some vc2 from hvc2)
            cases hveq
            refine ⟨(hs.2 vc rfl).1, ?_, ?_⟩
            · intro hpl2
              exact (hs.2 vc rfl).2.1 hpl2
            · intro hpt
              cases hpt
        | cons a rest =>
          refine runPlayNext_StateInv env now
            ⟨⟨a :: rest, cur, tst, false, some vc, tk⟩, act⟩ rfl ?_
          intro vc2 hvc2
          have hveq : vc2 = vc := (Option.some_inj.mp (show some vc = some vc2 from hvc2)).symm
          subst hveq
          exact ⟨(hs.2 vc2 rfl).1, (hs.2 vc2 rfl).2.2 rfl⟩

theorem connectOp_StateInv (env : Env) (ch : VoiceChannel) (s : Session) (hs : StateInv s) :
    StateInv (connectOp env ch s).1 := by
  obtain ⟨⟨q, cur, tst, pz, vcl, tk⟩, act⟩ := s
  unfold connectOp connect freshConnect
  dsimp only
  cases vcl with
  | none =>
    dsimp only
    cases hok : env.connectOk ch.id with
    | true =>
      constructor
      · intro hpt
        exact absurd rfl (hs.1 hpt).2
      · intro vc2 hvc2
        have hveq := Option.some_inj.mp (show some ({ channelId := ch.id, connected := true, player := PlayerStatus.idle, source := none } : VoiceClient) = some vc2 from hvc2)
        cases hveq
        refine ⟨rfl, ?_, ?_⟩
        · intro hpl2
          cases hpl2
        · intro hpt hpl2
          cases hpl2
    | false => exact hs
  | some vc =>
    dsimp only
    rw [if_pos (show vc.is_connected = true from (hs.2 vc rfl).1)]
    split_ifs with hch
    · exact hs
    · constructor
      · intro hpt
        exact ⟨(hs.1 hpt).1, by simp⟩
      · intro vc2 hvc2
        have hveq := Option.some_inj.mp (show some ({ vc with channelId := ch.id } : VoiceClient) = some vc2 from hvc2)
        cases hveq
        exact ⟨(hs.2 vc rfl).1, (hs.2 vc rfl).2.1, (hs.2 vc rfl).2.2⟩

theorem finishPlayback_StateInv (s : Session) (hs : StateInv s) :
    StateInv (finishPlayback s) := by
  obtain ⟨⟨q, cur, tst, pz, vcl, tk⟩, act⟩ := s
  unfold finishPlayback
  (try dsimp only)
  cases vcl with
  | none => exact hs
  | some vc =>
    dsimp only
    constructor
    · intro hpt
      exact ⟨(hs.1 hpt).1, by simp⟩
    · intro vc2 hvc2
      have hveq := Option.some_inj.mp (show some ({ vc with player := PlayerStatus.idle, source := none } : VoiceClient) = some vc2 from hvc2)
      cases hveq
      refine ⟨(hs.2 vc rfl).1, ?_, ?_⟩
      · intro hpl2
        cases hpl2
      · intro hpt hpl2
        cases hpl2

theorem wakeResume_StateInv (env : Env) (now : Nat) (s : Session)
    (hen : wakeEnabled s) (hs : StateInv s) : StateInv (wakeResume env now s) := by
  obtain ⟨⟨q, cur, tst, pz, vcl, tk⟩, act⟩ := s
  unfold wakeResume
  (try dsimp only)
  cases pz with
  | true => exact hs
  | false =>
    refine runPlayNext_StateInv env now ⟨⟨q, cur, none, false, vcl, tk⟩, act⟩ rfl ?_
    intro vc hvc
    have hvcl : vcl = some vc := hvc
    refine ⟨(hs.2 vc hvcl).1, ?_⟩
    intro hpl
    rw [hen.2 vc hvcl] at hpl
    cases hpl

theorem stateInv_stepND {s t : Session} (h : StepND s t) (hs : StateInv s) : StateInv t := by
  cases h with
  | queueStep env now p n u pn d => exact queue_sound_StateInv env now s p n u pn d hs
  | playNowStep env now p n u d => exact play_now_StateInv env now s p n u d hs
  | skipStep => exact skip_StateInv s hs
  | stopStep => exact stop_StateInv s hs
  | pauseStep => exact pause_StateInv s hs
  | resumeStep env now => exact resume_StateInv env now s hs
  | connectStep env ch => exact connectOp_StateInv env ch s hs
  | finishStep hstr => exact finishPlayback_StateInv s hs
  | wakeStep env now hen => exact wakeResume_StateInv env now s hen hs

theorem stateInv_reachableND {s : Session} (h : ReachableND s) : StateInv s := by
  induction h with
  | init =>
    constructor
    · intro hpt
      cases hpt
    · intro vc hvc
      cases hvc
  | step h1 h2 ih => exact stateInv_stepND h2 ih

end SoundBot

namespace SoundBot

/-- Claim C3 counterexample: the claimed invariant (paused implies a
current item and a connection) does not hold in every reachable state.
The trace queue a sound, then `pause`, then `disconnect` reaches a state
with `is_paused = true` but `current = none` and `voice_client = none`,
because `disconnect` clears the queue, the current item and the voice
client while leaving the paused flag set. -/
theorem c3_counterexample : ¬ (∀ s : Session, Reachable s → PausedInv s) := by
  intro h
  have hr1 : Reachable cexSession1 :=
    Reachable.step Reachable.init
      (Step.nd (StepND.queueStep initSession cexEnv 0 5 "x" none false none))
  have hr2 : Reachable cexSession2 :=
    Reachable.step hr1 (Step.nd (StepND.pauseStep cexSession1))
  have hr3 : Reachable cexSession3 :=
    Reachable.step hr2 (Step.disconnectStep cexSession2)
  have hp : cexSession3.st.is_paused = true := by decide
  have hcur : cexSession3.st.current = none := by decide
  exact absurd hcur (h cexSession3 hr3 hp).1

/-- Claim C3 (amended): the predicate `paused == true` implies
`current != none` and `connection != none` holds after every facade
operation in every session state reachable without `disconnect`;
`disconnect` itself can break it (it clears `current` and the connection
but not the paused flag), and once broken the failing commands that follow
do not restore it. -/
theorem c3_paused_invariant (s : Session) (h : ReachableND s) :
    s.st.is_paused = true → s.st.current ≠ none ∧ s.st.voice_client ≠ none :=
  (stateInv_reachableND h).1

/-- Witness for C3: the paused trace state (queue a sound, then pause) is
reachable without disconnect, satisfies the hypothesis, and the theorem
yields its conclusion there. -/
theorem c3_paused_invariant_witness :
    cexSession2.st.current ≠ none ∧ cexSession2.st.voice_client ≠ none := by
  have hr1 : ReachableND cexSession1 :=
    ReachableND.step ReachableND.init
      (StepND.queueStep initSession cexEnv 0 5 "x" none false none)
  have hr2 : ReachableND cexSession2 :=
    ReachableND.step hr1 (StepND.pauseStep cexSession1)
  exact c3_paused_invariant cexSession2 hr2 (by decide)

end SoundBot

namespace SoundBot

/-- Claim C10: for a guild id never referenced before, the read-only
queries return neutral defaults (empty queue, no current item, not
playing, not paused) and lazily create the per-guild state. -/
theorem c10_fresh_guild_defaults (m : List (Nat × GuildPlaybackState)) (gid : Nat)
    (h : lookupGuild m gid = none) :
    get_queue m gid = ([], m ++ [(gid, initState)]) ∧
    get_current m gid = (none, m ++ [(gid, initState)]) ∧
    is_playing m gid = (false, m ++ [(gid, initState)]) ∧
    is_paused m gid = (false, m ++ [(gid, initState)]) ∧
    lookupGuild (get_queue m gid).2 gid = some initState := by
  unfold get_queue get_current is_playing is_paused get_state
  rw [h]
  exact ⟨rfl, rfl, rfl, rfl, lookupGuild_append_self m gid h⟩

/-- Witness for C10 at the empty registry and guild id 0. -/
theorem c10_fresh_guild_defaults_witness :
    get_queue [] 0 = ([], [(0, initState)]) ∧
    get_current [] 0 = (none, [(0, initState)]) ∧
    is_playing [] 0 = (false, [(0, initState)]) ∧
    is_paused [] 0 = (false, [(0, initState)]) ∧
    lookupGuild (get_queue [] 0).2 0 = some initState := by
  simpa using c10_fresh_guild_defaults [] 0 rfl

/-- Claim C7: pause when already paused fails with "Already paused" and
leaves the state unchanged; resume when not paused fails with no state
change; skip when nothing is playing or queued fails with no state change;
and the first pause of active playback succeeds. -/
theorem c7_invalid_commands (env : Env) (now : Nat) (s : Session) :
    (∀ vc, s.st.voice_client = some vc → s.st.is_paused = true →
       pause s = (s, false, "Already paused")) ∧
    (s.st.is_paused = false →
       (resume env now s).1 = s ∧ (resume env now s).2.1 = false) ∧
    (s.st.current = none → s.st.queue = [] →
       skip s = (s, false, "Nothing is playing or queued")) ∧
    (∀ vc, s.st.voice_client = some vc → s.st.is_paused = false →
       vc.player = PlayerStatus.playing → (pause s).2.1 = true) := by
  obtain ⟨⟨q, cur, tst, pz, vcl, tk⟩, act⟩ := s
  refine ⟨?_, ?_, ?_, ?_⟩
  · intro vc hvc hp
    have h1 : vcl = some vc := hvc
    subst h1
    have h2 : pz = true := hp
    subst h2
    rfl
  · intro hp
    have h2 : pz = false := hp
    subst h2
    cases vcl with
    | none => exact ⟨rfl, rfl⟩
    | some vc => exact ⟨rfl, rfl⟩
  · intro hc hq
    have h1 : cur = none := hc
    subst h1
    have h2 : q = [] := hq
    subst h2
    rfl
  · intro vc hvc hp hpl
    have h1 : vcl = some vc := hvc
    subst h1
    have h2 : pz = false := hp
    subst h2
    obtain ⟨cid, cn, pl, src⟩ := vc
    have h3 : pl = PlayerStatus.playing := hpl
    subst h3
    rfl

/-- Witness for C7 on the concrete trace states. -/
theorem c7_invalid_commands_witness :
    pause cexSession2 = (cexSession2, false, "Already paused") ∧
    (resume cexEnv 0 cexSession1).1 = cexSession1 ∧
    (resume cexEnv 0 cexSession1).2.1 = false ∧
    skip initSession = (initSession, false, "Nothing is playing or queued") ∧
    (pause cexSession1).2.1 = true := by
  refine ⟨?_, ?_, ?_, ?_, ?_⟩
  · exact (c7_invalid_commands cexEnv 0 cexSession2).1
      { channelId := 10, connected := true, player := PlayerStatus.paused,
        source := some { path := 5, startOffset := 0 } } (by decide) (by decide)
  · exact ((c7_invalid_commands cexEnv 0 cexSession1).2.1 (by decide)).1
  · exact ((c7_invalid_commands cexEnv 0 cexSession1).2.1 (by decide)).2
  · exact (c7_invalid_commands cexEnv 0 initSession).2.2.1 rfl rfl
  · exact (c7_invalid_commands cexEnv 0 cexSession1).2.2.2
      { channelId := 10, connected := true, player := PlayerStatus.playing,
        source := some { path := 5, startOffset := 0 } } (by decide) (by decide) (by decide)

/-- Claim C8: when the paused flag is set but the transport is not in a
paused state and the queue is non-empty, `resume` clears the flag,
restarts the playback loop on the queued items and returns success. -/
theorem c8_resume_restarts_loop (env : Env) (now : Nat) (s : Session) (vc : VoiceClient)
    (hvc : s.st.voice_client = some vc)
    (hp : s.st.is_paused = true)
    (hnp : vc.player ≠ PlayerStatus.paused)
    (hq : s.st.queue ≠ []) :
    resume env now s =
      (runPlayNext env now { s with st := { s.st with is_paused := false } }, true,
        "Resumed queue playback") ∧
    (resume env now s).1.st.is_paused = false := by
  obtain ⟨⟨q, cur, tst, pz, vcl, tk⟩, act⟩ := s
  have h1 : vcl = some vc := hvc
  subst h1
  have h2 : pz = true := hp
  subst h2
  obtain ⟨cid, cn, pl, src⟩ := vc
  have hq2 : q ≠ [] := hq
  cases q with
  | nil => exact absurd rfl hq2
  | cons a rest =>
    have hmain : resume env now
        ⟨⟨a :: rest, cur, tst, true, some ⟨cid, cn, pl, src⟩, tk⟩, act⟩ =
        (runPlayNext env now
          ⟨⟨a :: rest, cur, tst, false, some ⟨cid, cn, pl, src⟩, tk⟩, act⟩, true,
          "Resumed queue playback") := by
      cases pl with
      | paused => exact absurd rfl hnp
      | idle => rfl
      | playing => rfl
    refine ⟨hmain, ?_⟩
    rw [hmain]
    exact playNextAux_is_paused env now _ _ _

/-- Witness for C8: the paused-with-idle-transport session with one queued
item; resume restarts the loop there. -/
theorem c8_resume_restarts_loop_witness :
    resume cexEnv 3 sessionC8 =
      (runPlayNext cexEnv 3
        { sessionC8 with st := { sessionC8.st with is_paused := false } }, true,
        "Resumed queue playback") :=
  (c8_resume_restarts_loop cexEnv 3 sessionC8
    { channelId := 10, connected := true, player := PlayerStatus.idle, source := none }
    (by decide) (by decide) (by decide) (by decide)).1

end SoundBot

namespace SoundBot

/-- Claim C9: `play_now` while a current item exists but the transport is
not actively playing (for example while paused) only inserts the new item
at the front of the queue: the current item is not requeued or modified,
no loop is spawned, the transport and all other state fields are
untouched, and the call still reports success with a "Playing ... now"
message. -/
theorem c9_play_now_not_streaming (env : Env) (now : Nat) (s : Session)
    (p : Nat) (nm : String) (u : Option Nat) (d : Option Nat) (X : QueueItem)
    (hcur : s.st.current = some X)
    (hns : ∀ vc, s.st.voice_client = some vc → vc.player ≠ PlayerStatus.playing)
    (hfile : env.fileExists p = true) :
    (play_now env now s p nm u d).2.1 = true ∧
    (play_now env now s p nm u d).2.2 =
      "Playing **" ++ nm ++ "**" ++ durationSuffix d ++ " now" ∧
    (play_now env now s p nm u d).1.st.queue =
      { audio_path := p, name := nm, user := u, added_at := now,
        seek_position := 0, duration := d } :: s.st.queue ∧
    (play_now env now s p nm u d).1.st.current = some X ∧
    (play_now env now s p nm u d).1.st.voice_client = s.st.voice_client ∧
    (play_now env now s p nm u d).1.st.current_started_at = s.st.current_started_at ∧
    (play_now env now s p nm u d).1.st.is_paused = s.st.is_paused ∧
    (play_now env now s p nm u d).1.st.play_task = s.st.play_task ∧
    (play_now env now s p nm u d).1.activity = s.activity := by
  obtain ⟨⟨q, cur, tst, pz, vcl, tk⟩, act⟩ := s
  have h1 : cur = some X := hcur
  subst h1
  unfold play_now
  rw [if_neg (by rw [hfile]; simp)]
  dsimp only
  cases vcl with
  | none => exact ⟨rfl, rfl, rfl, rfl, rfl, rfl, rfl, rfl, rfl⟩
  | some vc =>
    dsimp only
    have hnpl : vc.is_playing = false := by
      cases hpl : vc.is_playing
      · rfl
      · exact absurd (of_decide_eq_true hpl) (hns vc rfl)
    rw [hnpl]
    exact ⟨rfl, rfl, rfl, rfl, rfl, rfl, rfl, rfl, rfl⟩

/-- Witness for C9 at the paused trace state. -/
theorem c9_play_now_not_streaming_witness :
    (play_now cexEnv 1 cexSession2 6 "z" none none).2.1 = true ∧
    (play_now cexEnv 1 cexSession2 6 "z" none none).1.st.current =
      some { audio_path := 5, name := "x", user := none, added_at := 0,
             seek_position := 0, duration := none } ∧
    (play_now cexEnv 1 cexSession2 6 "z" none none).1.st.play_task =
      cexSession2.st.play_task := by
  have h := c9_play_now_not_streaming cexEnv 1 cexSession2 6 "z" none none
    { audio_path := 5, name := "x", user := none, added_at := 0,
      seek_position := 0, duration := none }
    (by decide)
    (by
      intro vc hvc
      have h1 : some ({ channelId := 10, connected := true, player := PlayerStatus.paused, source := some { path := 5, startOffset := 0 } } : VoiceClient) = some vc := hvc
      cases Option.some_inj.mp h1
      decide)
    rfl
  exact ⟨h.1, h.2.2.2.1, h.2.2.2.2.2.2.2.1⟩

end SoundBot

namespace SoundBot

/-- Claim C2 counterexample: with items a and b queued and channel
resolution failing (no populated channel), the loop pops a, clears
`current` and terminates, leaving b unplayed in the queue — it does not
continue with the next queued item.  The same happens when resolution
succeeds but the connection fails. -/
theorem c2_counterexample :
    (runPlayNext envNoChannel 0 sessionC2).st.queue = [itemB] ∧
    (runPlayNext envNoChannel 0 sessionC2).st.current = none ∧
    (runPlayNext envNoChannel 0 sessionC2).st.play_task = LoopStatus.notRunning ∧
    (runPlayNext envNoConnect 0 sessionC2).st.queue = [itemB] ∧
    (runPlayNext envNoConnect 0 sessionC2).st.current = none ∧
    (runPlayNext envNoConnect 0 sessionC2).st.play_task = LoopStatus.notRunning := by
  exact ⟨by decide, by decide, by decide, by decide, by decide, by decide⟩

/-- Claim C2 (amended): a missing audio file makes the loop drop the item
and continue with the next queued item; a failed channel resolution or a
failed connection acquisition instead clears `current` and terminates the
loop, leaving all remaining items in the queue unplayed until a later
command spawns a new loop. -/
theorem c2_failure_behaviour (env : Env) (now : Nat) (item : QueueItem)
    (rest : List QueueItem) (st : GuildPlaybackState) (act : List (Nat × Nat)) :
    (env.fileExists item.audio_path = false →
      playNextAux env now (item :: rest) st act =
        playNextAux env now rest { st with queue := rest, current := some item } act) ∧
    (env.fileExists item.audio_path = true →
      find_best_channel env.guild (userVoiceOf env item.user) act now = none →
      playNextAux env now (item :: rest) st act =
        ({ st with queue := rest, current := none,
                   play_task := LoopStatus.notRunning }, act)) ∧
    (∀ ch, env.fileExists item.audio_path = true →
      find_best_channel env.guild (userVoiceOf env item.user) act now = some ch →
      st.voice_client = none →
      env.connectOk ch.id = false →
      playNextAux env now (item :: rest) st act =
        ({ st with queue := rest, current := none,
                   play_task := LoopStatus.notRunning }, act)) := by
  refine ⟨?_, ?_, ?_⟩
  · intro hf
    rw [playNextAux]
    rw [if_pos hf]
  · intro hf hfb
    rw [playNextAux]
    rw [if_neg (by rw [hf]; simp)]
    rw [hfb]
  · intro ch hf hfb hvcl hok
    rw [playNextAux]
    rw [if_neg (by rw [hf]; simp)]
    rw [hfb]
    dsimp only
    have hcn : connect env ch { st with queue := rest, current := some item } =
        (none, { st with queue := rest, current := some item }) := by
      unfold connect freshConnect
      dsimp only
      rw [hvcl]
      rw [if_neg (by rw [hok]; simp)]
    rw [hcn]

/-- Witness for C2 (amended) at the concrete failure scenarios. -/
theorem c2_failure_behaviour_witness :
    playNextAux envNoChannel 0 [itemA, itemB] sessionC2.st [] =
      ({ sessionC2.st with queue := [itemB], current := none,
                           play_task := LoopStatus.notRunning }, []) ∧
    playNextAux envNoConnect 0 [itemA, itemB] sessionC2.st [] =
      ({ sessionC2.st with queue := [itemB], current := none,
                           play_task := LoopStatus.notRunning }, []) := by
  constructor
  · exact (c2_failure_behaviour envNoChannel 0 itemA [itemB] sessionC2.st []).2.1
      (by decide) (by decide)
  · exact (c2_failure_behaviour envNoConnect 0 itemA [itemB] sessionC2.st []).2.2
      { id := 10, members := [{ id := 100, bot := false }] }
      (by decide) (by decide) (by decide) (by decide)

theorem populatedChannels_nil (g : Guild) (recent : List Nat)
    (h : ∀ ch ∈ g.voice_channels, nonBotMembers ch = []) :
    populatedChannels g recent = [] := by
  obtain ⟨gid, ls⟩ := g
  unfold populatedChannels
  dsimp only at h ⊢
  induction ls with
  | nil => rfl
  | cons a ls ih =>
    simp only [List.filterMap_cons]
    rw [h a (List.mem_cons_self a ls)]
    exact ih (fun ch hch => h ch (List.mem_cons_of_mem a hch))

/-- Claim C5: the channel selector returns the requester's current voice
channel whenever there is one, regardless of other channels; with no
requester channel it returns a populated channel whose
`(recent_count, member_count)` key is maximal in the descending
lexicographic order; and it returns `none` when no channel has a non-bot
member. -/
theorem c5_find_best_channel (g : Guild) (activity : List (Nat × Nat)) (now : Nat) :
    (∀ ch, find_best_channel g (some ch) activity now = some ch) ∧
    (populatedChannels g (getRecentUsers activity now) ≠ [] →
      ∃ b, b ∈ populatedChannels g (getRecentUsers activity now) ∧
        find_best_channel g none activity now = some b.1 ∧
        ∀ e ∈ populatedChannels g (getRecentUsers activity now),
          lexLe (chanKey e) (chanKey b)) ∧
    ((∀ ch ∈ g.voice_channels, nonBotMembers ch = []) →
      find_best_channel g none activity now = none) := by
  refine ⟨fun ch => rfl, ?_, ?_⟩
  · intro hne
    cases hsrt : List.insertionSort chanGe (populatedChannels g (getRecentUsers activity now)) with
    | nil =>
      exfalso
      have hperm := List.perm_insertionSort chanGe (populatedChannels g (getRecentUsers activity now))
      rw [hsrt] at hperm
      exact hne (List.Perm.eq_nil hperm.symm)
    | cons b tl =>
      refine ⟨b, ?_, ?_, ?_⟩
      · have hmem : b ∈ List.insertionSort chanGe (populatedChannels g (getRecentUsers activity now)) := by
          rw [hsrt]
          exact List.mem_cons_self _ _
        exact (List.mem_insertionSort chanGe).mp hmem
      · unfold find_best_channel
        dsimp only
        rw [hsrt]
      · intro e he
        have hsorted := List.sorted_insertionSort chanGe (populatedChannels g (getRecentUsers activity now))
        rw [hsrt] at hsorted
        have he2 : e ∈ List.insertionSort chanGe (populatedChannels g (getRecentUsers activity now)) :=
          (List.mem_insertionSort chanGe).mpr he
        rw [hsrt] at he2
        rcases List.mem_cons.mp he2 with heq | htl
        · subst heq
          exact Or.inr ⟨rfl, le_refl _⟩
        · exact List.rel_of_sorted_cons hsorted e htl
  · intro hall
    unfold find_best_channel
    dsimp only
    rw [populatedChannels_nil g (getRecentUsers activity now) hall]
    rfl

/-- Witness for C5: the requester's channel wins; and with no requester,
channel C (2 members, both recent) beats channel B (3 members, 1 recent). -/
theorem c5_find_best_channel_witness :
    find_best_channel guildBC (some chanB) actBC 200 = some chanB ∧
    (∃ b, b ∈ populatedChannels guildBC (getRecentUsers actBC 200) ∧
      find_best_channel guildBC none actBC 200 = some b.1 ∧
      ∀ e ∈ populatedChannels guildBC (getRecentUsers actBC 200),
        lexLe (chanKey e) (chanKey b)) ∧
    find_best_channel guildBC none actBC 200 = some chanC := by
  refine ⟨(c5_find_best_channel guildBC actBC 200).1 chanB, ?_, by decide⟩
  exact (c5_find_best_channel guildBC actBC 200).2.1 (by decide)

end SoundBot

namespace SoundBot

theorem playNextAux_play (env : Env) (now : Nat) (item : QueueItem)
    (rest : List QueueItem) (st : GuildPlaybackState) (act : List (Nat × Nat))
    (vc : VoiceClient) (ch : VoiceChannel)
    (hfile : env.fileExists item.audio_path = true)
    (hfb : find_best_channel env.guild (userVoiceOf env item.user) act now = some ch)
    (hvc : st.voice_client = some vc)
    (hconn : vc.connected = true) :
    ∃ vc2 : VoiceClient,
      (playNextAux env now (item :: rest) st act).1 =
        { st with queue := rest, current := some item,
                  current_started_at := some now,
                  voice_client := some vc2,
                  play_task := LoopStatus.awaitingDone } ∧
      vc2.player = PlayerStatus.playing ∧
      vc2.source = some { path := item.audio_path, startOffset := item.seek_position } ∧
      vc2.connected = true := by
  obtain ⟨q0, cur0, tst0, pz0, vcl0, tk0⟩ := st
  have h1 : vcl0 = some vc := hvc
  subst h1
  obtain ⟨cid, cn, pl, src⟩ := vc
  have h2 : cn = true := hconn
  subst h2
  rw [playNextAux]
  rw [if_neg (by rw [hfile]; simp)]
  rw [hfb]
  dsimp only
  by_cases hch : cid = ch.id
  · have hcn : connect env ch ⟨rest, some item, tst0, pz0, some ⟨cid, true, pl, src⟩, tk0⟩ =
        (some ⟨cid, true, pl, src⟩,
          ⟨rest, some item, tst0, pz0, some ⟨cid, true, pl, src⟩, tk0⟩) := by
      unfold connect
      dsimp only
      rw [if_pos hch]
      rfl
    rw [hcn]
    exact ⟨⟨cid, true, PlayerStatus.playing,
      some { path := item.audio_path, startOffset := item.seek_position }⟩,
      rfl, rfl, rfl, rfl⟩
  · have hcn : connect env ch ⟨rest, some item, tst0, pz0, some ⟨cid, true, pl, src⟩, tk0⟩ =
        (some ⟨ch.id, true, pl, src⟩,
          ⟨rest, some item, tst0, pz0, some ⟨ch.id, true, pl, src⟩, tk0⟩) := by
      unfold connect
      dsimp only
      rw [if_neg hch]
      rfl
    rw [hcn]
    exact ⟨⟨ch.id, true, PlayerStatus.playing,
      some { path := item.audio_path, startOffset := item.seek_position }⟩,
      rfl, rfl, rfl, rfl⟩

/-- Claim C1: while X is streaming, `play_now` with a new item Z adds the
elapsed time since the playback start to X's seek position, pushes X to
the front of the queue and then Z to the front of that, so the queue is
Z first and the requeued X second, and it stops the transport; the woken
loop then plays Z from offset 0, and when Z finishes, the loop resumes X
with an audio source starting at the recorded seek position rather than
from zero. -/
theorem c1_play_now_interrupt (env : Env) (t0 t1 t2 t3 : Nat)
    (X : QueueItem) (rest : List QueueItem) (act : List (Nat × Nat))
    (cid : Nat) (src : Option AudioSource)
    (pZ : Nat) (nmZ : String) (uZ : Option Nat) (dZ : Option Nat)
    (hfX : env.fileExists X.audio_path = true)
    (hfZ : env.fileExists pZ = true)
    (hfb : ∀ uv a n, find_best_channel env.guild uv a n ≠ none) :
    let Xr : QueueItem := { X with seek_position := X.seek_position + (t1 - t0) }
    let Z : QueueItem := { audio_path := pZ, name := nmZ, user := uZ,
                           added_at := t1, seek_position := 0, duration := dZ }
    let s1 : Session := ⟨⟨Z :: Xr :: rest, some Xr, some t0, false,
      some ⟨cid, true, PlayerStatus.idle, none⟩, LoopStatus.awaitingDone⟩, act⟩
    play_now env t1
        ⟨⟨rest, some X, some t0, false, some ⟨cid, true, PlayerStatus.playing, src⟩,
          LoopStatus.awaitingDone⟩, act⟩ pZ nmZ uZ dZ =
      (s1, true, "Playing **" ++ nmZ ++ "**" ++ durationSuffix dZ ++ " now") ∧
    wakeEnabled s1 ∧
    ∃ vcZ : VoiceClient,
      (wakeResume env t2 s1).st =
        ⟨Xr :: rest, some Z, some t2, false, some vcZ, LoopStatus.awaitingDone⟩ ∧
      vcZ.player = PlayerStatus.playing ∧
      vcZ.source = some { path := pZ, startOffset := 0 } ∧
      ∃ vcX : VoiceClient,
        (wakeResume env t3 (finishPlayback (wakeResume env t2 s1))).st =
          ⟨rest, some Xr, some t3, false, some vcX, LoopStatus.awaitingDone⟩ ∧
        vcX.player = PlayerStatus.playing ∧
        vcX.source = some { path := X.audio_path,
                            startOffset := X.seek_position + (t1 - t0) } := by
  intro Xr Z s1
  have hs1 : play_now env t1
      ⟨⟨rest, some X, some t0, false, some ⟨cid, true, PlayerStatus.playing, src⟩,
        LoopStatus.awaitingDone⟩, act⟩ pZ nmZ uZ dZ =
      (s1, true, "Playing **" ++ nmZ ++ "**" ++ durationSuffix dZ ++ " now") := by
    unfold play_now
    rw [if_neg (by rw [hfZ]; simp)]
    rfl
  refine ⟨hs1, ⟨rfl, ?_⟩, ?_⟩
  · intro vc hvc
    cases Option.some_inj.mp hvc
    rfl
  · cases hfbz : find_best_channel env.guild (userVoiceOf env uZ) act t2 with
    | none => exact absurd hfbz (hfb _ _ _)
    | some chZ =>
      obtain ⟨vcZ, heqZ, hpZ, hsZ, hcZ⟩ :=
        playNextAux_play env t2 Z (Xr :: rest)
          ⟨Z :: Xr :: rest, some Xr, none, false,
            some ⟨cid, true, PlayerStatus.idle, none⟩, LoopStatus.awaitingDone⟩
          act ⟨cid, true, PlayerStatus.idle, none⟩ chZ hfZ hfbz rfl rfl
      have heqZ2 : (wakeResume env t2 s1).st =
          ⟨Xr :: rest, some Z, some t2, false, some vcZ, LoopStatus.awaitingDone⟩ := heqZ
      refine ⟨vcZ, heqZ2, hpZ, hsZ, ?_⟩
      have hsess2 : wakeResume env t2 s1 =
          ⟨⟨Xr :: rest, some Z, some t2, false, some vcZ, LoopStatus.awaitingDone⟩,
            (wakeResume env t2 s1).activity⟩ := by
        have hsplit : wakeResume env t2 s1 =
            ⟨(wakeResume env t2 s1).st, (wakeResume env t2 s1).activity⟩ := rfl
        rw [hsplit, heqZ2]
      have hfin : finishPlayback (wakeResume env t2 s1) =
          ⟨⟨Xr :: rest, some Z, some t2, false,
            some ⟨vcZ.channelId, vcZ.connected, PlayerStatus.idle, none⟩,
            LoopStatus.awaitingDone⟩, (wakeResume env t2 s1).activity⟩ := by
        rw [hsess2]
        rfl
      cases hfbx : find_best_channel env.guild (userVoiceOf env X.user)
          (wakeResume env t2 s1).activity t3 with
      | none => exact absurd hfbx (hfb _ _ _)
      | some chX =>
        obtain ⟨vcX, heqX, hpX, hsX, hcX⟩ :=
          playNextAux_play env t3 Xr rest
            ⟨Xr :: rest, some Z, none, false,
              some ⟨vcZ.channelId, vcZ.connected, PlayerStatus.idle, none⟩,
              LoopStatus.awaitingDone⟩
            (wakeResume env t2 s1).activity
            ⟨vcZ.channelId, vcZ.connected, PlayerStatus.idle, none⟩ chX hfX hfbx rfl hcZ
        refine ⟨vcX, ?_, hpX, hsX⟩
        rw [hfin]
        exact heqX

end SoundBot

namespace SoundBot

/-- Witness for C1 on a fully concrete interruption: X (path 5) streaming
since time 0, interrupted at time 4 by Z (path 6). -/
theorem c1_play_now_interrupt_witness :
    play_now cexEnv 4
        ⟨⟨[], some ⟨5, "x", none, 0, 0, none⟩, some 0, false,
          some ⟨10, true, PlayerStatus.playing, some ⟨5, 0⟩⟩,
          LoopStatus.awaitingDone⟩, []⟩ 6 "z" none none =
      (⟨⟨[⟨6, "z", none, 4, 0, none⟩, ⟨5, "x", none, 0, 4, none⟩],
         some ⟨5, "x", none, 0, 4, none⟩, some 0, false,
         some ⟨10, true, PlayerStatus.idle, none⟩,
         LoopStatus.awaitingDone⟩, []⟩, true,
        "Playing **" ++ "z" ++ "**" ++ durationSuffix none ++ " now") :=
  (c1_play_now_interrupt cexEnv 0 4 5 9 ⟨5, "x", none, 0, 0, none⟩ [] [] 10
    (some ⟨5, 0⟩) 6 "z" none none rfl rfl
    (by
      intro uv a n hcon
      cases uv with
      | some ch =>
        have h2 : (some ch : Option VoiceChannel) = none := hcon
        cases h2
      | none =>
        have h2 : (some ({ id := 10, members := [{ id := 100, bot := false }] } :
            VoiceChannel) : Option VoiceChannel) = none := hcon
        cases h2)).1

/-- Claim C4 counterexample: `stop` while an item is current but the queue
is empty (a reachable state: one sound queued on a fresh session is
immediately promoted to current) returns success with the plain message
"Stopped playback", which contains no digit and therefore does not report
the number (zero) of cleared queued items. -/
theorem c4_counterexample :
    Reachable cexSession1 ∧
    cexSession1.st.current ≠ none ∧
    cexSession1.st.queue = [] ∧
    (stop cexSession1).2.1 = true ∧
    (stop cexSession1).2.2 = "Stopped playback" ∧
    ((stop cexSession1).2.2).data.contains '0' = false := by
  refine ⟨?_, by decide, by decide, by decide, by decide, by decide⟩
  exact Reachable.step Reachable.init
    (Step.nd (StepND.queueStep initSession cexEnv 0 5 "x" none false none))

/-- Claim C4 (amended): for every state with a current item or a non-empty
queue, `stop` succeeds, clears the whole queue, clears the paused flag,
clears the current item, and stops the transport when it is actively
playing; the message reports the number of cleared queued items when at
least one was cleared and is the plain "Stopped playback" otherwise.  In
particular `play_now` immediately followed by `stop` leaves the queue
empty and clears current, and the subsequent loop wake-up finds an empty
queue and terminates, so the interrupted item is never resumed. -/
theorem c4_stop_clears :
    (∀ s : Session, ¬ (s.st.current = none ∧ s.st.queue = []) →
      (stop s).2.1 = true ∧
      (stop s).1.st.queue = [] ∧
      (stop s).1.st.is_paused = false ∧
      (stop s).1.st.current = none ∧
      (∀ vc, s.st.voice_client = some vc → vc.player = PlayerStatus.playing →
        (stop s).1.st.voice_client =
          some { vc with player := PlayerStatus.idle, source := none }) ∧
      (stop s).2.2 = (if s.st.queue.length > 0 then
        "Stopped playback and cleared " ++ toString s.st.queue.length ++ " queued sounds"
        else "Stopped playback")) ∧
    (∀ (env : Env) (t0 t1 t2 : Nat) (X : QueueItem) (rest : List QueueItem)
        (act : List (Nat × Nat)) (cid : Nat) (src : Option AudioSource)
        (pZ : Nat) (nmZ : String) (uZ dZ : Option Nat),
      env.fileExists pZ = true →
      (stop (play_now env t1
          ⟨⟨rest, some X, some t0, false, some ⟨cid, true, PlayerStatus.playing, src⟩,
            LoopStatus.awaitingDone⟩, act⟩ pZ nmZ uZ dZ).1).1.st.queue = [] ∧
      (stop (play_now env t1
          ⟨⟨rest, some X, some t0, false, some ⟨cid, true, PlayerStatus.playing, src⟩,
            LoopStatus.awaitingDone⟩, act⟩ pZ nmZ uZ dZ).1).1.st.current = none ∧
      (wakeResume env t2 (stop (play_now env t1
          ⟨⟨rest, some X, some t0, false, some ⟨cid, true, PlayerStatus.playing, src⟩,
            LoopStatus.awaitingDone⟩, act⟩ pZ nmZ uZ dZ).1).1).st.current = none ∧
      (wakeResume env t2 (stop (play_now env t1
          ⟨⟨rest, some X, some t0, false, some ⟨cid, true, PlayerStatus.playing, src⟩,
            LoopStatus.awaitingDone⟩, act⟩ pZ nmZ uZ dZ).1).1).st.play_task =
        LoopStatus.notRunning) := by
  constructor
  · intro s h
    obtain ⟨⟨q, cur, tst, pz, vcl, tk⟩, act⟩ := s
    unfold stop
    dsimp only
    rw [if_neg h]
    dsimp only
    cases vcl with
    | none =>
      refine ⟨rfl, rfl, rfl, rfl, ?_, rfl⟩
      intro vc hvc
      cases hvc
    | some vc =>
      dsimp only
      cases hpl : vc.is_playing with
      | true =>
        refine ⟨rfl, rfl, rfl, rfl, ?_, rfl⟩
        intro vc2 hvc2 hplay
        cases Option.some_inj.mp hvc2
        rfl
      | false =>
        refine ⟨rfl, rfl, rfl, rfl, ?_, rfl⟩
        intro vc2 hvc2 hplay
        cases Option.some_inj.mp hvc2
        unfold VoiceClient.is_playing at hpl
        rw [hplay] at hpl
        simp at hpl
  · intro env t0 t1 t2 X rest act cid src pZ nmZ uZ dZ hfZ2
    have hs1 : play_now env t1
        ⟨⟨rest, some X, some t0, false, some ⟨cid, true, PlayerStatus.playing, src⟩,
          LoopStatus.awaitingDone⟩, act⟩ pZ nmZ uZ dZ =
        (⟨⟨{ audio_path := pZ, name := nmZ, user := uZ, added_at := t1,
             seek_position := 0, duration := dZ } ::
           { X with seek_position := X.seek_position + (t1 - t0) } :: rest,
           some { X with seek_position := X.seek_position + (t1 - t0) }, some t0, false,
           some ⟨cid, true, PlayerStatus.idle, none⟩, LoopStatus.awaitingDone⟩, act⟩,
          true, "Playing **" ++ nmZ ++ "**" ++ durationSuffix dZ ++ " now") := by
      unfold play_now
      rw [if_neg (by rw [hfZ2]; simp)]
      rfl
    rw [hs1]
    exact ⟨rfl, rfl, rfl, rfl⟩

/-- Witness for C4 (amended): stop on the session streaming one item with
an empty queue, and the concrete interrupt-then-stop scenario. -/
theorem c4_stop_clears_witness :
    (stop cexSession1).2.1 = true ∧
    (stop cexSession1).1.st.queue = [] ∧
    (stop (play_now cexEnv 4
        ⟨⟨[], some ⟨5, "x", none, 0, 0, none⟩, some 0, false,
          some ⟨10, true, PlayerStatus.playing, some ⟨5, 0⟩⟩,
          LoopStatus.awaitingDone⟩, []⟩ 6 "z" none none).1).1.st.queue = [] ∧
    (wakeResume cexEnv 9 (stop (play_now cexEnv 4
        ⟨⟨[], some ⟨5, "x", none, 0, 0, none⟩, some 0, false,
          some ⟨10, true, PlayerStatus.playing, some ⟨5, 0⟩⟩,
          LoopStatus.awaitingDone⟩, []⟩ 6 "z" none none).1).1).st.current = none := by
  have h1 := c4_stop_clears.1 cexSession1 (by decide)
  have h2 := c4_stop_clears.2 cexEnv 0 4 9 ⟨5, "x", none, 0, 0, none⟩ [] [] 10
    (some ⟨5, 0⟩) 6 "z" none none rfl
  exact ⟨h1.1, h1.2.1, h2.1, h2.2.2.1⟩

end SoundBot

namespace SoundBot

/-- Claim C6 counterexample: in the reachable state after
disconnect-while-paused, the session has no current item, yet
`queue_sound` does not spawn the playback loop and reports a "Queued"
message rather than "now playing": the source guards the spawn on
`current is None and not is_paused`, not on idleness alone.  The resulting
state differs from the previous one only in the queue. -/
theorem c6_counterexample :
    cexSession3.st.current = none ∧
    Reachable cexSession3 ∧
    (queue_sound cexEnv 7 cexSession3 8 "y" none false none).2.2 =
      "Queued **y** (position 1)" ∧
    (queue_sound cexEnv 7 cexSession3 8 "y" none false none).1 =
      { cexSession3 with st := { cexSession3.st with queue :=
          [{ audio_path := 8, name := "y", user := none, added_at := 7,
             seek_position := 0, duration := none }] } } := by
  refine ⟨by decide, ?_, by decide, by decide⟩
  have hr1 : Reachable cexSession1 :=
    Reachable.step Reachable.init
      (Step.nd (StepND.queueStep initSession cexEnv 0 5 "x" none false none))
  have hr2 : Reachable cexSession2 :=
    Reachable.step hr1 (Step.nd (StepND.pauseStep cexSession1))
  exact Reachable.step hr2 (Step.disconnectStep cexSession2)

/-- Claim C6 (amended): for every `queue_sound` call on an existing audio
file, the item is appended to the back of the queue when `play_next` is
false and to the front when it is true; when the session has no current
item and the paused flag is clear, the call runs the playback loop and
reports "Playing ...", and otherwise it reports "Queued ... (position N)"
where N is 1 for a front insert and the new queue length for a back
insert, without touching anything but the queue. -/
theorem c6_queue_sound (env : Env) (now : Nat) (s : Session) (p : Nat)
    (nm : String) (u : Option Nat) (pn : Bool) (d : Option Nat)
    (hfile : env.fileExists p = true) :
    (s.st.current = none ∧ s.st.is_paused = false →
      queue_sound env now s p nm u pn d =
        (runPlayNext env now { s with st := { s.st with queue :=
            if pn then { audio_path := p, name := nm, user := u, added_at := now,
                         seek_position := 0, duration := d } :: s.st.queue
            else s.st.queue ++ [{ audio_path := p, name := nm, user := u, added_at := now,
                                  seek_position := 0, duration := d }] } }, true,
          "Playing **" ++ nm ++ "**" ++ durationSuffix d)) ∧
    (¬ (s.st.current = none ∧ s.st.is_paused = false) →
      queue_sound env now s p nm u pn d =
        ({ s with st := { s.st with queue :=
            if pn then { audio_path := p, name := nm, user := u, added_at := now,
                         seek_position := 0, duration := d } :: s.st.queue
            else s.st.queue ++ [{ audio_path := p, name := nm, user := u, added_at := now,
                                  seek_position := 0, duration := d }] } }, true,
          "Queued **" ++ nm ++ "**" ++ durationSuffix d ++ " (position " ++
            toString (if pn then 1 else
              (s.st.queue ++ ([{ audio_path := p, name := nm, user := u, added_at := now,
                                 seek_position := 0, duration := d }] : List QueueItem)).length)
            ++ ")")) := by
  obtain ⟨⟨q, cur, tst, pz, vcl, tk⟩, act⟩ := s
  unfold queue_sound
  rw [if_neg (by rw [hfile]; simp)]
  dsimp only
  constructor
  · intro hidle
    rw [if_pos hidle]
  · intro hidle
    rw [if_neg hidle]
    cases pn with
    | true => rfl
    | false => rfl

/-- Witness for C6 (amended): the spawn branch on a fresh session and the
queued branch on the disconnected-while-paused state. -/
theorem c6_queue_sound_witness :
    queue_sound cexEnv 0 initSession 5 "x" none false none =
      (runPlayNext cexEnv 0 { initSession with st := { initSession.st with queue :=
          [{ audio_path := 5, name := "x", user := none, added_at := 0,
             seek_position := 0, duration := none }] } }, true,
        "Playing **" ++ "x" ++ "**" ++ durationSuffix none) ∧
    (queue_sound cexEnv 7 cexSession3 8 "y" none false none).2.2 =
      "Queued **" ++ "y" ++ "**" ++ durationSuffix none ++ " (position " ++
        toString (1 : Nat) ++ ")" := by
  constructor
  · exact (c6_queue_sound cexEnv 0 initSession 5 "x" none false none rfl).1
      ⟨rfl, rfl⟩
  · have h := (c6_queue_sound cexEnv 7 cexSession3 8 "y" none false none rfl).2
      (by decide)
    rw [h]
    rfl

end SoundBot
